import Mathlib

/-!
Verification development for the FusionFX risk-control engine
(`agents/risk_kernel.py`, `agents/utils/portfolio.py`, `utils/alerts.py`).

The Python code is shallowly embedded over exact rationals: every numeric
value is a `ℚ`, the Python `round(x, -3)` is modelled by `pyRoundM1000`
(round to the nearest multiple of 1000, ties to the even multiple),
the Python `int(x)` truncation by `pyInt`, and the one fallible arithmetic
step (division by `volatility * balance`, which the source leaves
unguarded) by an `Option`, with the enclosing `try/except` of the method
mapping the error to the conservative 1000-unit default.
External collaborator calls (current positions, portfolio metrics) are
passed in explicitly, as `Except` values where the source wraps them in
`try/except`.
-/

namespace FusionFX

/-- One tier of the VIX penalty curve: `{"threshold": t, "multiplier": m}`. -/
structure VixRule where
  threshold : ℚ
  multiplier : ℚ
deriving DecidableEq

/-- The comparison used by `sorted(self.vix_penalty_curve, key=threshold, reverse=True)`:
rule `a` comes before rule `b` when the threshold of `a` is the larger one. -/
def ruleDesc (a b : VixRule) : Prop := b.threshold ≤ a.threshold

instance : DecidableRel ruleDesc := fun a b => inferInstanceAs (Decidable (b.threshold ≤ a.threshold))

instance : IsTotal VixRule ruleDesc := ⟨fun a b => le_total b.threshold a.threshold⟩

instance : IsTrans VixRule ruleDesc := ⟨fun _ _ _ h1 h2 => le_trans h2 h1⟩

/-- The default `vix_penalty_curve` from `RiskKernel.__init__`. -/
def defaultVixCurve : List VixRule :=
  [⟨20, 1⟩, ⟨25, 4/5⟩, ⟨30, 3/5⟩, ⟨40, 3/10⟩, ⟨50, 1/10⟩]

/-- The multiplier selected by `apply_vix_penalty`: iterate over the curve
sorted by descending threshold and take the first rule with `vix >= threshold`
(the loop `break`s at the first hit); `1.0` when no rule fires. -/
def vixMultiplier (curve : List VixRule) (vix : ℚ) : ℚ :=
  match (curve.insertionSort ruleDesc).find? (fun r => decide (r.threshold ≤ vix)) with
  | some r => r.multiplier
  | none => 1

/-- Function `RiskKernel.apply_vix_penalty`: `adjusted_risk = base_risk * multiplier`. -/
def apply_vix_penalty (curve : List VixRule) (base_risk vix : ℚ) : ℚ :=
  base_risk * vixMultiplier curve vix

/-- Configuration fields of `RiskKernel` that the risk algorithms read. -/
structure RiskLimits where
  base_risk : ℚ
  max_drawdown : ℚ
  max_positions : Nat
  max_risk_per_pair : ℚ
  max_correlation_exposure : ℚ
  win_rate_threshold : ℚ
  sharpe_threshold : ℚ
  vix_penalty_curve : List VixRule

/-- The portfolio-metrics fields `risk_kernel.py` reads from
`get_portfolio_metrics()`; `drawdown` is a percentage. -/
structure PortfolioMetrics where
  win_rate : ℚ
  sharpe : ℚ
  drawdown : ℚ
  volatility : ℚ

/-- Function `RiskKernel.apply_performance_penalty` on an already-fetched metrics
snapshot: three conditional multiplicative discounts applied in sequence. -/
def apply_performance_penalty (k : RiskLimits) (m : PortfolioMetrics) (base_risk : ℚ) : ℚ :=
  let mult0 : ℚ := 1
  let mult1 :=
    if m.win_rate < k.win_rate_threshold then
      mult0 * (1/2 + (m.win_rate / k.win_rate_threshold) * (1/2))
    else mult0
  let mult2 :=
    if m.sharpe < k.sharpe_threshold then
      mult1 * (1/2 + max 0 (m.sharpe / k.sharpe_threshold) * (1/2))
    else mult1
  let current_drawdown := m.drawdown / 100
  let mult3 :=
    if current_drawdown > k.max_drawdown * (1/2) then
      mult2 * max (1/10) (1 - (current_drawdown / k.max_drawdown) * (1/2))
    else mult2
  base_risk * mult3

/-- The reading the spec gives of the performance penalty (§4.3): the result is
`base_risk` times the product of exactly the triggered multipliers, with
untriggered factors equal to 1. Stated from the words of the spec, to be
compared with `apply_performance_penalty`. -/
def perfPenaltySpec (k : RiskLimits) (m : PortfolioMetrics) (base_risk : ℚ) : ℚ :=
  base_risk *
    ((if m.win_rate < k.win_rate_threshold then
        1/2 + (m.win_rate / k.win_rate_threshold) * (1/2) else 1) *
     (if m.sharpe < k.sharpe_threshold then
        1/2 + max 0 (m.sharpe / k.sharpe_threshold) * (1/2) else 1) *
     (if m.drawdown / 100 > k.max_drawdown * (1/2) then
        max (1/10) (1 - (m.drawdown / 100 / k.max_drawdown) * (1/2)) else 1))

/-- The regime bucketing of `RiskKernel.get_market_volatility`. -/
def volRegime (volatility : ℚ) : String :=
  if volatility < 1/100 then "low"
  else if volatility < 2/100 then "normal"
  else if volatility < 4/100 then "high"
  else "extreme"

/-- The Python `round` to an integer: nearest integer, ties to even. -/
def pyRound (q : ℚ) : ℤ :=
  let f := ⌊q⌋
  let frac := q - f
  if frac < 1/2 then f
  else if 1/2 < frac then f + 1
  else if 2 ∣ f then f else f + 1

/-- The Python `round(x, -3)`: nearest multiple of 1000, ties to even. -/
def pyRoundM1000 (x : ℚ) : ℚ := ((1000 * pyRound (x / 1000) : ℤ) : ℚ)

/-- The Python `int(x)`: truncation toward zero. -/
def pyInt (q : ℚ) : ℤ := if 0 ≤ q then ⌊q⌋ else ⌈q⌉

/-- Step 6 of the sizing algorithm as written in the source:
`position_size = max(1000, round(position_size, -3))`. -/
def stepSixSize (raw : ℚ) : ℚ := max 1000 (pyRoundM1000 raw)

/-- The raw-size computation of `calculate_position_size`. In the branch
`stop_loss_pips and stop_loss_pips > 0` the divisor `stop_loss_pips * 10`
is positive; otherwise the source divides by `volatility * account_balance`
with no guard, so a zero divisor is the Python `ZeroDivisionError` path,
modelled as `none`. -/
def rawSizeOpt (volatility risk_amount balance : ℚ) (stop_loss_pips : Option ℚ) : Option ℚ :=
  match stop_loss_pips with
  | some p =>
    if 0 < p then some (risk_amount / (p * 10))
    else if volatility * balance = 0 then none
    else some (risk_amount / (volatility * balance))
  | none =>
    if volatility * balance = 0 then none
    else some (risk_amount / (volatility * balance))

/-- Steps 1-4 of `calculate_position_size`: base risk, VIX penalty,
performance penalty, volatility-regime multiplier. -/
def sizedRisk (k : RiskLimits) (m : PortfolioMetrics) (vix balance : ℚ) : ℚ :=
  let risk1 := balance * k.base_risk
  let risk2 := apply_vix_penalty k.vix_penalty_curve risk1 vix
  let risk3 := apply_performance_penalty k m risk2
  let regime := volRegime m.volatility
  let volMult : ℚ := if regime = "high" then 7/10 else if regime = "extreme" then 2/5 else 1
  risk3 * volMult

/-- The body of `RiskKernel.calculate_position_size` (inside its `try`),
with the collaborator reads (VIX, metrics snapshot) passed in explicitly.
`none` is the escaping-exception path. -/
def position_size_body (k : RiskLimits) (m : PortfolioMetrics) (vix balance : ℚ)
    (stop_loss_pips : Option ℚ) : Option ℤ :=
  (rawSizeOpt m.volatility (sizedRisk k m vix balance) balance stop_loss_pips).map (fun raw =>
    let ps := stepSixSize raw
    let cap := balance * k.max_risk_per_pair / (11/10)
    pyInt (min ps cap))

/-- Function `RiskKernel.calculate_position_size`: the `except` handler turns any
escaping error into the conservative 1000-unit default. -/
def calculate_position_size (k : RiskLimits) (m : PortfolioMetrics) (vix balance : ℚ)
    (stop_loss_pips : Option ℚ) : ℤ :=
  (position_size_body k m vix balance stop_loss_pips).getD 1000

/-- The discrete risk posture tracked by `self.risk_state`. -/
inductive RiskState where
  | normal
  | cautious
  | defensive
  | emergency
deriving DecidableEq

/-- The state computed by the `if/elif` chain of `_update_risk_state` from the
VIX reading, the drawdown fraction (`drawdown_pct / 100`) and the
volatility regime. -/
def new_risk_state (max_drawdown vix current_drawdown : ℚ) (regime : String) : RiskState :=
  if current_drawdown > max_drawdown * (8/10) then .emergency
  else if vix > 40 ∨ regime = "extreme" then .defensive
  else if vix > 25 ∨ current_drawdown > max_drawdown * (1/2) then .cautious
  else .normal

/-- Observable effects emitted by `_update_risk_state` and `emergency_stop`:
the `risk_state_change` log event and the two alert kinds. -/
inductive RKEvent where
  | riskStateChange (oldState newState : RiskState)
  | criticalAlert
  | systemAlert
deriving DecidableEq

/-- The events `_update_risk_state` emits on a state change: the transition
log entry, then a critical alert when entering emergency, or (`elif`) a
system alert when entering defensive from a non-emergency state. -/
def riskEvents (stored ns : RiskState) : List RKEvent :=
  RKEvent.riskStateChange stored ns ::
    (if ns = .emergency then [RKEvent.criticalAlert]
     else if ns = .defensive ∧ stored ≠ .emergency then [RKEvent.systemAlert]
     else [])

/-- One evaluation of `_update_risk_state` on an already-fetched drawdown:
compute the new state; when it differs from the stored state, emit the
change events and store the new state, otherwise do nothing. -/
def update_risk_state (max_drawdown : ℚ) (stored : RiskState) (vix current_drawdown : ℚ)
    (regime : String) : RiskState × List RKEvent :=
  let ns := new_risk_state max_drawdown vix current_drawdown regime
  if ns = stored then (stored, []) else (ns, riskEvents stored ns)

/-- Runs `n` consecutive evaluation cycles of `_update_risk_state` on unchanged
inputs, accumulating the emitted events in order. -/
def runCycles (max_drawdown vix current_drawdown : ℚ) (regime : String) :
    Nat → RiskState → RiskState × List RKEvent
  | 0, s => (s, [])
  | n + 1, s =>
    let step := update_risk_state max_drawdown s vix current_drawdown regime
    let rest := runCycles max_drawdown vix current_drawdown regime n step.1
    (rest.1, step.2 ++ rest.2)

/-- Functions `send_telegram` / `send_sms` of `utils/alerts.py`: the transport attempt
either succeeds or fails with a message; every failure is caught inside
the function and surfaces only as a `False` return value. -/
def send_channel (transport : Except String Unit) : Bool :=
  match transport with
  | .ok _ => true
  | .error _ => false

/-- Function `send_critical_alert`: sends on both channels, returns the conjunction
of the per-channel outcomes, and never raises. -/
def send_critical_alert (telegram sms : Except String Unit) : Bool :=
  send_channel telegram && send_channel sms

/-- The outcome of one `RiskKernel.emergency_stop()` call. -/
structure StopOutcome where
  state : RiskState
  returned : Bool
  alertDelivered : Bool
deriving DecidableEq

/-- Function `RiskKernel.emergency_stop`: log, attempt the critical alert (which
cannot raise), then unconditionally assign `risk_state = "emergency"` and
return `True`. -/
def emergency_stop (_stored : RiskState) (telegram sms : Except String Unit) : StopOutcome :=
  let delivered := send_critical_alert telegram sms
  { state := .emergency, returned := true, alertDelivered := delivered }

/-- One open position as read by `check_position_limits`. -/
structure OpenPosition where
  pair : String
  risk_amount : ℚ

/-- The proposed position passed to `check_position_limits`. -/
structure NewPosition where
  pair : String
  risk_amount : ℚ

/-- The static `correlation_map` dict of `_get_correlated_pairs`. -/
def correlation_map : List (String × List String) :=
  [("EUR/USD", ["GBP/USD", "AUD/USD"]),
   ("GBP/USD", ["EUR/USD", "AUD/USD"]),
   ("USD/JPY", ["USD/CHF"]),
   ("AUD/USD", ["EUR/USD", "GBP/USD", "NZD/USD"]),
   ("NZD/USD", ["AUD/USD"])]

/-- Function `_get_correlated_pairs`: `correlation_map.get(pair, [])`. -/
def get_correlated_pairs (pair : String) : List String :=
  (correlation_map.lookup pair).getD []

/-- The `pair_exposure` sum of `check_position_limits`. -/
def pair_exposure (positions : List OpenPosition) (pair : String) : ℚ :=
  ((positions.filter (fun p => decide (p.pair = pair))).map OpenPosition.risk_amount).sum

/-- The `correlated_exposure` sum of `check_position_limits`. -/
def correlated_exposure (positions : List OpenPosition) (pair : String) : ℚ :=
  ((positions.filter (fun p => decide (p.pair ∈ get_correlated_pairs pair))).map
    OpenPosition.risk_amount).sum

/-- Function `RiskKernel.check_position_limits`, with the two collaborator reads
(`_get_current_positions()` and the `get_portfolio_metrics()` balance)
passed in as `Except` values; the enclosing `try/except` maps any
collaborator error `e` to `(False, "Error checking limits: " + str(e))`.
The metrics fetch only happens after the max-positions check passes, as
in the source. -/
def check_position_limits (k : RiskLimits) (positionsR : Except String (List OpenPosition))
    (balanceR : Except String ℚ) (newPos : NewPosition) : Bool × String :=
  match positionsR with
  | .error e => (false, "Error checking limits: " ++ e)
  | .ok positions =>
    if k.max_positions ≤ positions.length then
      (false, "Maximum number of positions reached")
    else
      match balanceR with
      | .error e => (false, "Error checking limits: " ++ e)
      | .ok balance =>
        let pairExp := pair_exposure positions newPos.pair
        if balance * k.max_risk_per_pair < pairExp + newPos.risk_amount then
          (false, "Pair risk limit exceeded for " ++ newPos.pair)
        else
          let corrExp := correlated_exposure positions newPos.pair
          if balance * k.max_correlation_exposure < corrExp + newPos.risk_amount then
            (false, "Correlation risk limit exceeded")
          else
            (true, "Position approved")

/-- The configuration used in the worked example of the spec: mode with
`base_risk = 0.1` and the default limits of `RiskKernel.__init__`. -/
def exampleLimits : RiskLimits :=
  { base_risk := 1/10
    max_drawdown := 3/20
    max_positions := 5
    max_risk_per_pair := 1/20
    max_correlation_exposure := 1/10
    win_rate_threshold := 2/5
    sharpe_threshold := 1/2
    vix_penalty_curve := defaultVixCurve }

/-- The metrics snapshot of the worked example of the spec: `win_rate = 0.5`,
`sharpe = 0.5`, `drawdown = 0`, and a volatility in the "normal" regime. -/
def exampleMetrics : PortfolioMetrics :=
  { win_rate := 1/2, sharpe := 1/2, drawdown := 0, volatility := 3/200 }

/-- A degenerate metrics snapshot with zero realized volatility, as produced
by `get_portfolio_metrics` on a constant equity curve of three points
(`np.std([0, 0]) = 0`). -/
def zeroVolMetrics : PortfolioMetrics :=
  { win_rate := 1/2, sharpe := 1/2, drawdown := 0, volatility := 0 }

/-! ## Helper lemmas (shared) -/

theorem pyInt_of_nonneg {q : ℚ} (h : 0 ≤ q) : pyInt q = ⌊q⌋ := by
  simp [pyInt, h]

theorem floor_min_rat (a b : ℚ) : ⌊min a b⌋ = min ⌊a⌋ ⌊b⌋ := by
  rcases le_total a b with h | h
  · rw [min_eq_left h, eq_comm, min_eq_left (Int.floor_le_floor h)]
  · rw [min_eq_right h, eq_comm, min_eq_right (Int.floor_le_floor h)]

theorem stepSixSize_intCast (raw : ℚ) :
    stepSixSize raw = ((max 1000 (1000 * pyRound (raw / 1000)) : ℤ) : ℚ) := by
  rw [stepSixSize, pyRoundM1000, Int.cast_max]
  norm_num

/-! ## C6: the performance penalty is the product of the triggered multipliers -/

/-- C6: `apply_performance_penalty` returns `base_risk` times the product of
exactly the triggered multipliers (win-rate, Sharpe, drawdown discounts),
untriggered factors being 1. -/
theorem apply_performance_penalty_product (k : RiskLimits) (m : PortfolioMetrics)
    (base_risk : ℚ) :
    apply_performance_penalty k m base_risk = perfPenaltySpec k m base_risk := by
  simp only [apply_performance_penalty, perfPenaltySpec]
  split_ifs <;> ring

/-! ## C3: the risk-state priority order -/

/-- C3: the risk state computed by `_update_risk_state` follows the fixed
priority order — emergency exactly when the drawdown fraction exceeds
`0.8 * max_drawdown` (regardless of vix or regime); else defensive exactly
when `vix > 40` or the regime is extreme; else cautious exactly when
`vix > 25` or the drawdown fraction exceeds `0.5 * max_drawdown`; else
normal. -/
theorem new_risk_state_priority (max_drawdown vix current_drawdown : ℚ) (regime : String) :
    (new_risk_state max_drawdown vix current_drawdown regime = .emergency ↔
      current_drawdown > max_drawdown * (8/10)) ∧
    (new_risk_state max_drawdown vix current_drawdown regime = .defensive ↔
      ¬ current_drawdown > max_drawdown * (8/10) ∧ (vix > 40 ∨ regime = "extreme")) ∧
    (new_risk_state max_drawdown vix current_drawdown regime = .cautious ↔
      ¬ current_drawdown > max_drawdown * (8/10) ∧ ¬ (vix > 40 ∨ regime = "extreme") ∧
        (vix > 25 ∨ current_drawdown > max_drawdown * (1/2))) ∧
    (new_risk_state max_drawdown vix current_drawdown regime = .normal ↔
      ¬ current_drawdown > max_drawdown * (8/10) ∧ ¬ (vix > 40 ∨ regime = "extreme") ∧
        ¬ (vix > 25 ∨ current_drawdown > max_drawdown * (1/2))) := by
  unfold new_risk_state
  split_ifs with h1 h2 h3 <;> simp_all

/-! ## C4: the emergency stop always flips the state -/

/-- C4: every invocation of `emergency_stop` leaves the stored risk state
equal to emergency — also when both alert channels fail — and a second
consecutive invocation again leaves the state emergency (idempotent). -/
theorem emergency_stop_always_flips (s : RiskState) (telegram sms : Except String Unit)
    (e1 e2 : String) :
    (emergency_stop s telegram sms).state = .emergency ∧
    (emergency_stop s telegram sms).returned = true ∧
    (emergency_stop s (.error e1) (.error e2)).state = .emergency ∧
    (emergency_stop s (.error e1) (.error e2)).alertDelivered = false ∧
    (emergency_stop (emergency_stop s telegram sms).state telegram sms).state = .emergency := by
  simp [emergency_stop, send_critical_alert, send_channel]

/-! ## C5: the limit check fails closed on collaborator errors -/

/-- C5 counterexample: on a collaborator error the reason string produced by
`check_position_limits` is `"Error checking limits: <message>"`, not the
literal `"error checking limits"`. -/
theorem check_limits_error_reason_counterexample :
    check_position_limits exampleLimits (.error "boom") (.ok 10000) ⟨"EUR/USD", 100⟩ =
      (false, "Error checking limits: boom") ∧
    "Error checking limits: boom" ≠ "error checking limits" := by
  constructor
  · rfl
  · decide

/-- C5 (amended): an error from either collaborator makes the check fail
closed — `approved = false` with reason `"Error checking limits: " ++ e` —
and an approved result can only arise when both collaborator reads
succeeded. -/
theorem check_limits_fail_closed (k : RiskLimits) (positions : List OpenPosition) (b : ℚ)
    (newPos : NewPosition) (e : String) (hcount : positions.length < k.max_positions) :
    check_position_limits k (.error e) (.ok b) newPos =
      (false, "Error checking limits: " ++ e) ∧
    check_position_limits k (.error e) (.error e) newPos =
      (false, "Error checking limits: " ++ e) ∧
    check_position_limits k (.ok positions) (.error e) newPos =
      (false, "Error checking limits: " ++ e) ∧
    (∀ (pr : Except String (List OpenPosition)) (br : Except String ℚ),
      (check_position_limits k pr br newPos).1 = true →
        (∃ l, pr = .ok l) ∧ (∃ bb, br = .ok bb)) := by
  refine ⟨rfl, rfl, ?_, ?_⟩
  · simp only [check_position_limits, if_neg (not_le.mpr hcount)]
  · intro pr br h
    cases pr with
    | error e1 => simp [check_position_limits] at h
    | ok l =>
      cases br with
      | error e2 => simp [check_position_limits, apply_ite] at h
      | ok bb => exact ⟨⟨l, rfl⟩, ⟨bb, rfl⟩⟩

/-- C5 witness: the amended theorem applied to a concrete erroring metrics
collaborator. -/
theorem check_limits_fail_closed_witness :
    check_position_limits exampleLimits (.ok []) (.error "io failure") ⟨"GBP/USD", 50⟩ =
      (false, "Error checking limits: io failure") :=
  (check_limits_fail_closed exampleLimits [] 0 ⟨"GBP/USD", 50⟩ "io failure"
    (by norm_num [exampleLimits])).2.2.1

/-! ## C10: the correlation lookup is asymmetric and empty off the map -/

/-- C10: the pair `USD/CHF` appears in the correlated set of `USD/JPY` but is not a key of
the map and its own correlated set is empty; for every pair outside the
five keys of the map the correlated exposure over any open-position list is 0,
so the correlation check compares only the own risk amount of the new position
against the cap. -/
theorem correlation_map_asymmetric (pair : String)
    (hout : pair ∉ correlation_map.map Prod.fst) :
    "USD/CHF" ∈ get_correlated_pairs "USD/JPY" ∧
    correlation_map.lookup "USD/CHF" = none ∧
    get_correlated_pairs "USD/CHF" = [] ∧
    get_correlated_pairs pair = [] ∧
    (∀ positions : List OpenPosition, correlated_exposure positions pair = 0) ∧
    (∀ (positions : List OpenPosition) (risk cap : ℚ),
      cap < correlated_exposure positions pair + risk ↔ cap < risk) := by
  simp only [correlation_map, List.map_cons, List.map_nil, List.mem_cons,
    List.not_mem_nil, or_false, not_or] at hout
  obtain ⟨h1, h2, h3, h4, h5⟩ := hout
  have hlook : correlation_map.lookup pair = none := by
    simp [correlation_map, List.lookup, beq_eq_false_iff_ne.mpr h1,
      beq_eq_false_iff_ne.mpr h2, beq_eq_false_iff_ne.mpr h3,
      beq_eq_false_iff_ne.mpr h4, beq_eq_false_iff_ne.mpr h5]
  have hempty : get_correlated_pairs pair = [] := by
    simp [get_correlated_pairs, hlook]
  have hexp : ∀ positions : List OpenPosition, correlated_exposure positions pair = 0 := by
    intro positions
    simp [correlated_exposure, hempty]
  refine ⟨by decide, by decide, by decide, hempty, hexp, ?_⟩
  intro positions risk cap
  rw [hexp positions, zero_add]

/-- C10 witness: the theorem applied to the concrete pair `USD/CHF`, which is
outside the keys of the map. -/
theorem correlation_map_asymmetric_witness :
    get_correlated_pairs "USD/CHF" = [] ∧
    correlated_exposure [⟨"USD/JPY", 50⟩] "USD/CHF" = 0 := by
  have h := correlation_map_asymmetric "USD/CHF" (by decide)
  exact ⟨h.2.2.2.1, h.2.2.2.2.1 _⟩

/-! ## C7: transition events and alerts are emitted exactly once -/

theorem update_risk_state_fst (max_drawdown : ℚ) (s : RiskState) (vix current_drawdown : ℚ)
    (regime : String) :
    (update_risk_state max_drawdown s vix current_drawdown regime).1 =
      new_risk_state max_drawdown vix current_drawdown regime := by
  simp only [update_risk_state]
  split_ifs with h
  · exact h.symm
  · rfl

theorem update_risk_state_snd (max_drawdown : ℚ) (s : RiskState) (vix current_drawdown : ℚ)
    (regime : String) :
    (update_risk_state max_drawdown s vix current_drawdown regime).2 =
      (if new_risk_state max_drawdown vix current_drawdown regime = s then []
       else riskEvents s (new_risk_state max_drawdown vix current_drawdown regime)) := by
  simp only [update_risk_state]
  split_ifs <;> rfl

theorem riskEvents_counts (s ns : RiskState) :
    (if ns = s then ([] : List RKEvent) else riskEvents s ns).count
        (RKEvent.riskStateChange s ns) = (if ns = s then 0 else 1) ∧
    (if ns = s then ([] : List RKEvent) else riskEvents s ns).count RKEvent.criticalAlert =
      (if ns ≠ s ∧ ns = .emergency then 1 else 0) ∧
    (if ns = s then ([] : List RKEvent) else riskEvents s ns).count RKEvent.systemAlert =
      (if ns ≠ s ∧ ns = .defensive ∧ s ≠ .emergency then 1 else 0) := by
  cases s <;> cases ns <;> decide

theorem runCycles_fixed (max_drawdown vix current_drawdown : ℚ) (regime : String) (n : Nat) :
    runCycles max_drawdown vix current_drawdown regime n
        (new_risk_state max_drawdown vix current_drawdown regime) =
      (new_risk_state max_drawdown vix current_drawdown regime, []) := by
  induction n with
  | zero => rfl
  | succ k ih => simp [runCycles, update_risk_state, ih]

theorem runCycles_succ_events (max_drawdown vix current_drawdown : ℚ) (regime : String)
    (s : RiskState) (n : Nat) :
    (runCycles max_drawdown vix current_drawdown regime (n + 1) s).2 =
      (update_risk_state max_drawdown s vix current_drawdown regime).2 := by
  simp only [runCycles, update_risk_state_fst, runCycles_fixed, List.append_nil]

/-- C7: over `n + 1` consecutive evaluation cycles on unchanged inputs, the
emitted events are exactly those of the first cycle; in particular there
are no events at all when the computed state equals the stored state, and
otherwise exactly one transition log entry, exactly one critical alert
when the computed state is emergency, and exactly one system alert when
it is defensive and the stored state was not emergency. -/
theorem risk_transition_events_once (max_drawdown vix current_drawdown : ℚ) (regime : String)
    (s : RiskState) (n : Nat) :
    (runCycles max_drawdown vix current_drawdown regime (n + 1) s).2 =
      (update_risk_state max_drawdown s vix current_drawdown regime).2 ∧
    (runCycles max_drawdown vix current_drawdown regime (n + 1) s).2.count
        (RKEvent.riskStateChange s (new_risk_state max_drawdown vix current_drawdown regime)) =
      (if new_risk_state max_drawdown vix current_drawdown regime = s then 0 else 1) ∧
    (runCycles max_drawdown vix current_drawdown regime (n + 1) s).2.count
        RKEvent.criticalAlert =
      (if new_risk_state max_drawdown vix current_drawdown regime ≠ s ∧
          new_risk_state max_drawdown vix current_drawdown regime = .emergency
       then 1 else 0) ∧
    (runCycles max_drawdown vix current_drawdown regime (n + 1) s).2.count
        RKEvent.systemAlert =
      (if new_risk_state max_drawdown vix current_drawdown regime ≠ s ∧
          new_risk_state max_drawdown vix current_drawdown regime = .defensive ∧
          s ≠ .emergency
       then 1 else 0) := by
  have h := riskEvents_counts s (new_risk_state max_drawdown vix current_drawdown regime)
  refine ⟨runCycles_succ_events _ _ _ _ _ _, ?_, ?_, ?_⟩ <;>
    rw [runCycles_succ_events, update_risk_state_snd]
  · exact h.1
  · exact h.2.1
  · exact h.2.2

/-! ## C1: the returned unit count versus the per-pair cap -/

theorem calc_eq_of_pos_stop (k : RiskLimits) (m : PortfolioMetrics) (vix balance p : ℚ)
    (hp : 0 < p) :
    calculate_position_size k m vix balance (some p) =
      pyInt (min (stepSixSize (sizedRisk k m vix balance / (p * 10)))
        (balance * k.max_risk_per_pair / (11/10))) := by
  simp [calculate_position_size, position_size_body, rawSizeOpt, hp]

/-- C1 counterexample: the worked example of the spec (balance 10000,
base risk 0.1, VIX multiplier 1, no performance penalty, normal regime,
20-pip stop) returns 454 units — below 1000 — because the per-pair cap
`10000 * 0.05 / 1.1` is applied after the 1000-unit floor. -/
theorem position_size_worked_example_counterexample :
    calculate_position_size exampleLimits exampleMetrics 20 10000 (some 20) = 454 ∧
    calculate_position_size exampleLimits exampleMetrics 20 10000 (some 20) < 1000 := by
  have h : calculate_position_size exampleLimits exampleMetrics 20 10000 (some 20) = 454 := by
    norm_num [calculate_position_size, position_size_body, rawSizeOpt, sizedRisk, stepSixSize,
      pyRoundM1000, pyRound, pyInt, apply_vix_penalty, apply_performance_penalty,
      vixMultiplier, defaultVixCurve, exampleLimits, exampleMetrics, volRegime,
      List.insertionSort, List.orderedInsert, ruleDesc]
  exact ⟨h, by rw [h]; norm_num⟩

/-- C1 (amended): for a positive balance and positive stop-loss, the result
of `calculate_position_size` is either at least 1000 units, or exactly the
integer truncation of the per-pair cap `balance * max_risk_per_pair / 1.1`;
whenever that truncated cap is itself at least 1000, the result is at
least 1000. -/
theorem position_size_cap_dominates (k : RiskLimits) (m : PortfolioMetrics)
    (vix balance p : ℚ) (hb : 0 < balance) (hp : 0 < p) (hk : 0 < k.max_risk_per_pair) :
    (1000 ≤ calculate_position_size k m vix balance (some p) ∨
      calculate_position_size k m vix balance (some p) =
        ⌊balance * k.max_risk_per_pair / (11/10)⌋) ∧
    (1000 ≤ ⌊balance * k.max_risk_per_pair / (11/10)⌋ →
      1000 ≤ calculate_position_size k m vix balance (some p)) := by
  have hcap_pos : (0:ℚ) < balance * k.max_risk_per_pair / (11/10) :=
    div_pos (mul_pos hb hk) (by norm_num)
  set raw := sizedRisk k m vix balance / (p * 10) with hraw
  set cap := balance * k.max_risk_per_pair / (11/10) with hcap
  set psInt : ℤ := max 1000 (1000 * pyRound (raw / 1000)) with hpsInt
  have hps : stepSixSize raw = (psInt : ℚ) := stepSixSize_intCast raw
  have h1000 : (1000:ℤ) ≤ psInt := le_max_left _ _
  have hps_pos : (0:ℚ) ≤ stepSixSize raw := by
    rw [hps]
    exact_mod_cast le_trans (by norm_num) h1000
  have hcalc : calculate_position_size k m vix balance (some p) = min psInt ⌊cap⌋ := by
    rw [calc_eq_of_pos_stop k m vix balance p hp,
      pyInt_of_nonneg (le_min hps_pos (le_of_lt hcap_pos)), floor_min_rat, hps,
      Int.floor_intCast]
  constructor
  · rcases le_total psInt ⌊cap⌋ with h | h
    · left
      rw [hcalc, min_eq_left h]
      exact h1000
    · right
      rw [hcalc, min_eq_right h]
  · intro hc
    rw [hcalc]
    exact le_min h1000 hc

/-- C1 witness: at balance 100000 the truncated cap is 4545 ≥ 1000, so the
amended theorem yields a result of at least 1000 units. -/
theorem position_size_cap_dominates_witness :
    1000 ≤ calculate_position_size exampleLimits exampleMetrics 20 100000 (some 20) := by
  refine (position_size_cap_dominates exampleLimits exampleMetrics 20 100000 20 (by norm_num)
    (by norm_num) (by norm_num [exampleLimits])).2 ?_
  norm_num [exampleLimits]

/-! ## C9: the zero-volatility divide-by-zero branch is reachable -/

/-- C9: with `stop_loss_pips` absent and portfolio volatility exactly 0, the
source divides by `volatility * account_balance = 0` — there is no floor to
the 0.02 default (`.get("volatility", 0.02)` only substitutes a missing
key) — so the raw size is the division-error path, not
`risk / (0.02 * balance)`, and the enclosing handler returns the
conservative 1000-unit fallback. -/
theorem zero_volatility_division_reached :
    rawSizeOpt 0 1000 10000 none = none ∧
    rawSizeOpt 0 1000 10000 none ≠ some (1000 / ((2/100) * 10000)) ∧
    position_size_body exampleLimits zeroVolMetrics 20 10000 none = none ∧
    calculate_position_size exampleLimits zeroVolMetrics 20 10000 none = 1000 := by
  refine ⟨by norm_num [rawSizeOpt], by simp [rawSizeOpt], ?_, ?_⟩ <;>
    norm_num [calculate_position_size, position_size_body, rawSizeOpt, zeroVolMetrics]

/-! ## C8: step 6 rounds to the nearest multiple of 1000, not down -/

theorem dist_ge_of_le_floor {q : ℚ} {n : ℤ} (h : n ≤ ⌊q⌋) :
    q - ⌊q⌋ ≤ |(n : ℚ) - q| := by
  have hn : (n : ℚ) ≤ ⌊q⌋ := by exact_mod_cast h
  have hfl : (⌊q⌋ : ℚ) ≤ q := Int.floor_le q
  rw [abs_of_nonpos (by linarith : (n : ℚ) - q ≤ 0)]
  linarith

theorem dist_ge_of_floor_lt {q : ℚ} {n : ℤ} (h : ⌊q⌋ < n) :
    (⌊q⌋ : ℚ) + 1 - q ≤ |(n : ℚ) - q| := by
  have hn : (⌊q⌋ : ℚ) + 1 ≤ n := by exact_mod_cast h
  have hfu : q < (⌊q⌋ : ℚ) + 1 := Int.lt_floor_add_one q
  rw [abs_of_nonneg (by linarith : (0:ℚ) ≤ (n : ℚ) - q)]
  linarith

theorem pyRound_nearest (q : ℚ) (n : ℤ) :
    |((pyRound q : ℤ) : ℚ) - q| ≤ |(n : ℚ) - q| := by
  have hfl : (⌊q⌋ : ℚ) ≤ q := Int.floor_le q
  have hfu : q < (⌊q⌋ : ℚ) + 1 := Int.lt_floor_add_one q
  simp only [pyRound]
  split_ifs with h1 h2 h3 <;>
    rcases le_or_lt n ⌊q⌋ with hn | hn <;>
    [skip; skip; skip; skip; skip; skip; skip; skip] <;>
    first
    | (rw [abs_sub_comm, abs_of_nonneg (by linarith)]
       have hd := dist_ge_of_le_floor hn
       linarith)
    | (rw [abs_sub_comm, abs_of_nonneg (by linarith)]
       have hd := dist_ge_of_floor_lt hn
       linarith)
    | (rw [abs_of_nonneg (by push_cast; linarith)]
       have hd := dist_ge_of_le_floor hn
       push_cast
       linarith)
    | (rw [abs_of_nonneg (by push_cast; linarith)]
       have hd := dist_ge_of_floor_lt hn
       push_cast
       linarith)

theorem pyRound_tie_even (q : ℚ) (h : q - ⌊q⌋ = 1/2) : 2 ∣ pyRound q := by
  simp only [pyRound]
  rw [if_neg (by rw [h]; norm_num), if_neg (by rw [h]; norm_num)]
  split_ifs with h3
  · exact h3
  · omega

theorem pyRoundM1000_nearest (raw : ℚ) (m : ℤ) :
    |pyRoundM1000 raw - raw| ≤ |1000 * (m : ℚ) - raw| := by
  have h := pyRound_nearest (raw / 1000) m
  have habs : |(1000:ℚ)| = 1000 := by norm_num
  calc |pyRoundM1000 raw - raw|
      = |1000 * (((pyRound (raw / 1000) : ℤ) : ℚ) - raw / 1000)| := by
        rw [pyRoundM1000]
        congr 1
        push_cast
        ring
    _ = 1000 * |((pyRound (raw / 1000) : ℤ) : ℚ) - raw / 1000| := by rw [abs_mul, habs]
    _ ≤ 1000 * |(m : ℚ) - raw / 1000| := by linarith
    _ = |1000 * ((m : ℚ) - raw / 1000)| := by rw [abs_mul, habs]
    _ = |1000 * (m : ℚ) - raw| := by congr 1; ring

/-- C8 counterexample: for raw size 1600 the source expression
`max(1000, round(1600, -3))` yields 2000, while rounding down to the
nearest multiple of 1000 with a 1000 floor would yield 1000; the full
sizing call at balance 160000 with a 1-pip stop indeed returns 2000. -/
theorem step_six_rounds_to_nearest_counterexample :
    stepSixSize 1600 = 2000 ∧
    max (1000:ℚ) (1000 * ((⌊(1600:ℚ) / 1000⌋ : ℤ) : ℚ)) = 1000 ∧
    stepSixSize 1600 ≠ max (1000:ℚ) (1000 * ((⌊(1600:ℚ) / 1000⌋ : ℤ) : ℚ)) ∧
    calculate_position_size exampleLimits exampleMetrics 20 160000 (some 1) = 2000 := by
  have hs1 : (("normal" : String) = "high") = False := by simp
  have hs2 : (("normal" : String) = "extreme") = False := by simp
  have hf : Int.fract ((8:ℚ)/5) = 3/5 := by
    unfold Int.fract
    norm_num
  have hmax : (1000:ℚ) ⊔ 2000 = 2000 := by
    rw [max_def]
    norm_num
  have hmin : (2000:ℚ) ⊓ (80000/11) = 2000 := by
    rw [min_def]
    norm_num
  refine ⟨?_, ?_, ?_, ?_⟩ <;>
    norm_num [stepSixSize, pyRoundM1000, pyRound, calculate_position_size, position_size_body,
      rawSizeOpt, sizedRisk, pyInt, apply_vix_penalty, apply_performance_penalty, vixMultiplier,
      defaultVixCurve, exampleLimits, exampleMetrics, volRegime, List.insertionSort,
      List.orderedInsert, ruleDesc, hs1, hs2, hf, hmax, hmin]

/-- C8 (amended): step 6 produces a multiple of 1000 that is at least 1000;
the rounding step picks a nearest multiple of 1000 (ties going to the even
multiple), not the next one down, and the 1000 floor only engages when the
rounded value is below 1000. -/
theorem step_six_nearest_props (raw : ℚ) :
    1000 ≤ stepSixSize raw ∧
    (∃ n : ℤ, stepSixSize raw = 1000 * n) ∧
    (∀ m : ℤ, |pyRoundM1000 raw - raw| ≤ |1000 * (m : ℚ) - raw|) ∧
    (raw / 1000 - ⌊raw / 1000⌋ = 1/2 → 2 ∣ pyRound (raw / 1000)) ∧
    (1000 ≤ pyRoundM1000 raw → stepSixSize raw = pyRoundM1000 raw) := by
  refine ⟨le_max_left _ _, ⟨max 1 (pyRound (raw / 1000)), ?_⟩, pyRoundM1000_nearest raw,
    fun h => pyRound_tie_even (raw / 1000) h, fun h => max_eq_right h⟩
  rw [stepSixSize_intCast]
  have h1 : (1000 : ℤ) * max 1 (pyRound (raw / 1000)) =
      max 1000 (1000 * pyRound (raw / 1000)) := by
    rw [mul_max_of_nonneg _ _ (by norm_num : (0:ℤ) ≤ 1000)]
    norm_num
  rw [← h1]
  push_cast
  ring

/-- C8 witness: the amended theorem evaluated at raw size 1600, where the
nearest multiple is 2000. -/
theorem step_six_nearest_props_witness :
    1000 ≤ stepSixSize 1600 ∧ stepSixSize 1600 = pyRoundM1000 1600 ∧
    |pyRoundM1000 1600 - 1600| ≤ |1000 * ((1 : ℤ) : ℚ) - 1600| := by
  have h := step_six_nearest_props 1600
  exact ⟨h.1, h.2.2.2.2 (by norm_num [pyRoundM1000, pyRound]), h.2.2.1 1⟩

/-! ## C2: the VIX penalty selects a single tier -/

theorem find_desc_max {vix : ℚ} :
    ∀ {l : List VixRule}, l.Sorted ruleDesc → ∀ {r : VixRule},
      l.find? (fun x => decide (x.threshold ≤ vix)) = some r →
      r.threshold ≤ vix ∧ ∀ s ∈ l, s.threshold ≤ vix → s.threshold ≤ r.threshold
  | [], _, _, hf => by simp at hf
  | a :: t, hs, r, hf => by
    rw [List.sorted_cons] at hs
    by_cases hpa : a.threshold ≤ vix
    · rw [List.find?_cons_of_pos _ (by simpa using hpa)] at hf
      injection hf with hf
      subst hf
      refine ⟨hpa, fun s hmem _ => ?_⟩
      rcases List.mem_cons.mp hmem with rfl | hmem
      · exact le_refl _
      · exact hs.1 s hmem
    · rw [List.find?_cons_of_neg _ (by simpa using hpa)] at hf
      obtain ⟨h1, h2⟩ := find_desc_max hs.2 hf
      refine ⟨h1, fun s hmem hsv => ?_⟩
      rcases List.mem_cons.mp hmem with rfl | hmem
      · exact absurd hsv hpa
      · exact h2 s hmem hsv

theorem pairwise_threshold_inj :
    ∀ {l : List VixRule}, l.Pairwise (fun a b => a.threshold < b.threshold) →
      ∀ {a}, a ∈ l → ∀ {b}, b ∈ l → a.threshold = b.threshold → a = b
  | [], _, _, ha, _, _, _ => absurd ha (List.not_mem_nil _)
  | c :: t, hp, a, ha, b, hb, heq => by
    rw [List.pairwise_cons] at hp
    rcases List.mem_cons.mp ha with ha1 | ha1
    · rcases List.mem_cons.mp hb with hb1 | hb1
      · rw [ha1, hb1]
      · subst ha1
        exact absurd heq (ne_of_lt (hp.1 b hb1))
    · rcases List.mem_cons.mp hb with hb1 | hb1
      · subst hb1
        exact absurd heq.symm (ne_of_lt (hp.1 a ha1))
      · exact pairwise_threshold_inj hp.2 ha1 hb1 heq

/-- C2: for a penalty curve with strictly increasing thresholds,
`apply_vix_penalty` multiplies the base risk by the multiplier of the
single rule with the largest threshold that is at most `vix`, and by 1
when `vix` is below every threshold; with the default curve, vix 32 picks
the 0.6 tier alone (no compounding) and vix 18 picks no tier. -/
theorem apply_vix_penalty_single_tier (curve : List VixRule) (base_risk vix : ℚ)
    (hinc : curve.Pairwise (fun a b => a.threshold < b.threshold)) :
    ((∀ r ∈ curve, vix < r.threshold) → apply_vix_penalty curve base_risk vix = base_risk) ∧
    (∀ r ∈ curve, r.threshold ≤ vix →
      (∀ s ∈ curve, s.threshold ≤ vix → s.threshold ≤ r.threshold) →
      apply_vix_penalty curve base_risk vix = base_risk * r.multiplier) ∧
    apply_vix_penalty defaultVixCurve base_risk 32 = base_risk * (3/5) ∧
    apply_vix_penalty defaultVixCurve base_risk 18 = base_risk := by
  refine ⟨?_, ?_, ?_, ?_⟩
  · intro hall
    have hnone : (curve.insertionSort ruleDesc).find?
        (fun x => decide (x.threshold ≤ vix)) = none := by
      rw [List.find?_eq_none]
      intro x hx
      simpa using not_le.mpr (hall x ((List.mem_insertionSort ruleDesc).mp hx))
    simp only [apply_vix_penalty, vixMultiplier]
    rw [hnone, mul_one]
  · intro r hr hrv hmax
    cases hfind : (curve.insertionSort ruleDesc).find? (fun x => decide (x.threshold ≤ vix)) with
    | none =>
      exfalso
      rw [List.find?_eq_none] at hfind
      have hcontra := hfind r ((List.mem_insertionSort ruleDesc).mpr hr)
      simp at hcontra
      exact absurd hrv (not_le.mpr hcontra)
    | some r0 =>
      obtain ⟨h0v, h0max⟩ := find_desc_max (List.sorted_insertionSort ruleDesc curve) hfind
      have hr0mem : r0 ∈ curve :=
        (List.mem_insertionSort ruleDesc).mp (List.mem_of_find?_eq_some hfind)
      have hle1 : r0.threshold ≤ r.threshold := hmax r0 hr0mem h0v
      have hle2 : r.threshold ≤ r0.threshold :=
        h0max r ((List.mem_insertionSort ruleDesc).mpr hr) hrv
      have heq : r0 = r := pairwise_threshold_inj hinc hr0mem hr (le_antisymm hle1 hle2)
      simp only [apply_vix_penalty, vixMultiplier]
      rw [hfind, heq]
  · have h32 : vixMultiplier defaultVixCurve 32 = 3/5 := rfl
    rw [apply_vix_penalty, h32]
  · have h18 : vixMultiplier defaultVixCurve 18 = 1 := rfl
    rw [apply_vix_penalty, h18, mul_one]

/-- C2 witness: the theorem applied to the default curve at vix 32, where
the 30-threshold rule is the largest tier at or below the reading. -/
theorem apply_vix_penalty_single_tier_witness :
    apply_vix_penalty defaultVixCurve 2 32 = 2 * (3/5) :=
  (apply_vix_penalty_single_tier defaultVixCurve 2 32
    (by norm_num [defaultVixCurve, List.pairwise_cons])).2.2.1

end FusionFX
